import Mathlib

/-!
Verification development for the TxnFlow ingestion pipeline.

The definitions below are a shallow embedding of the Go sources:
the hex codec (`internal/blockchain/hex.go`), the JSON-RPC client
response handling (`internal/blockchain/rpc.go`), the chain registry
(`internal/blockchain/registry.go`), the polling worker
(`internal/worker`), and the HTTP submission handler
(`internal/http/transactions.go`).  Machine integers are modelled as
`Int`/`Nat` with explicit range checks where Go's `strconv.ParseInt`
performs them; fallible Go functions returning `(T, error)` are
modelled as `Except String T`; the Postgres store is modelled as an
explicit state record, with nullable columns as `Option` fields.
-/

namespace TxnFlow

/-! ## Hex codec (`HexToInt64`, `HexToBigInt`, `HexToDecimalString`) -/

/-- Numeric value of one hexadecimal digit character (either case),
as accepted by Go's `strconv.ParseInt`/`big.Int.SetString` in base 16. -/
def hexDigitVal (c : Char) : Option Nat :=
  if '0' ≤ c ∧ c ≤ '9' then some (c.toNat - '0'.toNat)
  else if 'a' ≤ c ∧ c ≤ 'f' then some (c.toNat - 'a'.toNat + 10)
  else if 'A' ≤ c ∧ c ≤ 'F' then some (c.toNat - 'A'.toNat + 10)
  else none

/-- Accumulating base-16 parse of a digit list; `none` on any invalid digit. -/
def parseHexDigitsAux : List Char → Nat → Option Nat
  | [], acc => some acc
  | c :: cs, acc =>
    match hexDigitVal c with
    | some d => parseHexDigitsAux cs (16 * acc + d)
    | none => none

/-- Base-16 parse of a digit list; an empty digit list is a parse error,
matching Go's `strconv.ParseInt`/`big.Int.SetString` on an empty number. -/
def parseHexDigits (cs : List Char) : Option Nat :=
  match cs with
  | [] => none
  | cs => parseHexDigitsAux cs 0

/-- Split off an optional leading sign, as both `strconv.ParseInt` and
`big.Int.SetString` do before reading digits. -/
def splitSign (cs : List Char) : Bool × List Char :=
  match cs with
  | [] => (false, [])
  | c :: rest =>
    if c = '-' then (true, rest)
    else if c = '+' then (false, rest)
    else (false, c :: rest)

/-- Model of Go `strconv.ParseInt(s, 16, 64)`: optional sign, base-16
digits, and a signed 64-bit range check (`-2^63 ≤ v ≤ 2^63 - 1`). -/
def goParseInt16 (cs : List Char) : Option Int :=
  let (neg, ds) := splitSign cs
  match parseHexDigits ds with
  | none => none
  | some n =>
    if neg then
      if n ≤ 2 ^ 63 then some (-(n : Int)) else none
    else
      if n < 2 ^ 63 then some (n : Int) else none

/-- Model of Go `(*big.Int).SetString(s, 16)`: optional sign and base-16
digits, with no range limit. -/
def bigIntSetString16 (cs : List Char) : Option Int :=
  let (neg, ds) := splitSign cs
  match parseHexDigits ds with
  | none => none
  | some n => some (if neg then -(n : Int) else (n : Int))

/-- Model of `strings.TrimPrefix(hexStr, "0x")`: remove one leading `0x`
if present. -/
def stripHex0x (cs : List Char) : List Char :=
  match cs with
  | c1 :: c2 :: rest =>
    if c1 = '0' ∧ c2 = 'x' then rest else c1 :: c2 :: rest
  | cs => cs

/-- `HexToInt64` from `hex.go`: trim an optional `0x`, treat the empty
string as zero, otherwise parse with `strconv.ParseInt(s, 16, 64)`. -/
def HexToInt64 (hexStr : String) : Except String Int :=
  let s := stripHex0x hexStr.data
  if s = [] then .ok 0
  else
    match goParseInt16 s with
    | some v => .ok v
    | none => .error "failed to parse hex"

/-- `HexToBigInt` from `hex.go`: trim an optional `0x`, treat the empty
string as zero, otherwise parse with `big.Int.SetString(s, 16)`. -/
def HexToBigInt (hexStr : String) : Except String Int :=
  let s := stripHex0x hexStr.data
  if s = [] then .ok 0
  else
    match bigIntSetString16 s with
    | some v => .ok v
    | none => .error "failed to parse hex to big.Int"

/-- `HexToDecimalString` from `hex.go`: decode with `HexToBigInt` and
print the result in decimal (Go `big.Int.String`). -/
def HexToDecimalString (hexStr : String) : Except String String :=
  match HexToBigInt hexStr with
  | .ok v => .ok (toString v)
  | .error e => .error e

/-- Hexadecimal digit character for a value below 16, lower case, the
standard encoding whose round-trip the spec asserts. -/
def hexDigitChar (d : Nat) : Char :=
  if d < 10 then Char.ofNat ('0'.toNat + d) else Char.ofNat ('a'.toNat + d - 10)

/-- Standard hexadecimal encoding of a natural number (no `0x`, no sign). -/
def natToHex (n : Nat) : List Char :=
  if _h : n < 16 then [hexDigitChar n]
  else natToHex (n / 16) ++ [hexDigitChar (n % 16)]
termination_by n
decreasing_by exact Nat.div_lt_self (by omega) (by omega)

theorem hexDigitVal_hexDigitChar : ∀ d < 16, hexDigitVal (hexDigitChar d) = some d := by
  decide

theorem parseHexDigitsAux_append (l1 l2 : List Char) (acc : Nat) :
    parseHexDigitsAux (l1 ++ l2) acc =
      (parseHexDigitsAux l1 acc).bind (parseHexDigitsAux l2) := by
  induction l1 generalizing acc with
  | nil => rfl
  | cons c cs ih =>
    simp only [List.cons_append, parseHexDigitsAux]
    cases hexDigitVal c with
    | none => rfl
    | some d => exact ih _

theorem parseHexDigitsAux_natToHex (n : Nat) :
    ∀ acc : Nat, parseHexDigitsAux (natToHex n) acc =
      some (acc * 16 ^ (natToHex n).length + n) := by
  induction n using Nat.strong_induction_on with
  | _ n ih =>
    intro acc
    by_cases h : n < 16
    · rw [natToHex, dif_pos h]
      simp [parseHexDigitsAux, hexDigitVal_hexDigitChar n h, Nat.mul_comm]
    · rw [natToHex, dif_neg h]
      rw [parseHexDigitsAux_append]
      rw [ih (n / 16) (Nat.div_lt_self (by omega) (by omega)) acc]
      have hm : n % 16 < 16 := Nat.mod_lt _ (by omega)
      simp only [Option.some_bind, parseHexDigitsAux, hexDigitVal_hexDigitChar _ hm,
        List.length_append, List.length_cons, List.length_nil]
      congr 1
      calc 16 * (acc * 16 ^ (natToHex (n / 16)).length + n / 16) + n % 16
          = acc * (16 ^ (natToHex (n / 16)).length * 16) + (16 * (n / 16) + n % 16) := by
            ring
        _ = acc * 16 ^ ((natToHex (n / 16)).length + (0 + 1)) + n := by
            rw [Nat.div_add_mod, Nat.zero_add, pow_succ]

theorem natToHex_ne_nil (n : Nat) : natToHex n ≠ [] := by
  rw [natToHex]
  by_cases h : n < 16
  · rw [dif_pos h]; simp
  · rw [dif_neg h]; simp

theorem parseHexDigits_natToHex (n : Nat) : parseHexDigits (natToHex n) = some n := by
  have h := parseHexDigitsAux_natToHex n 0
  rw [Nat.zero_mul, Nat.zero_add] at h
  cases hcs : natToHex n with
  | nil => exact absurd hcs (natToHex_ne_nil n)
  | cons c cs =>
    rw [hcs] at h
    simp only [parseHexDigits]
    exact h

theorem mem_natToHex_valid (n : Nat) : ∀ c ∈ natToHex n, (hexDigitVal c).isSome := by
  induction n using Nat.strong_induction_on with
  | _ n ih =>
    intro c hc
    by_cases h : n < 16
    · rw [natToHex, dif_pos h] at hc
      simp at hc
      rw [hc, hexDigitVal_hexDigitChar n h]
      rfl
    · rw [natToHex, dif_neg h] at hc
      rcases List.mem_append.mp hc with h1 | h2
      · exact ih (n / 16) (Nat.div_lt_self (by omega) (by omega)) c h1
      · simp at h2
        rw [h2, hexDigitVal_hexDigitChar _ (Nat.mod_lt _ (by omega))]
        rfl

theorem stripHex0x_natToHex (n : Nat) : stripHex0x (natToHex n) = natToHex n := by
  cases hcs : natToHex n with
  | nil => rfl
  | cons a t =>
    cases t with
    | nil => rfl
    | cons b t' =>
      have hb : (hexDigitVal b).isSome := by
        apply mem_natToHex_valid n
        rw [hcs]; simp
      have hbx : b ≠ 'x' := by
        intro hbe; rw [hbe] at hb; simp [hexDigitVal] at hb
      simp only [stripHex0x]
      rw [if_neg (fun h => hbx h.2)]

theorem splitSign_of_head_valid (c : Char) (cs : List Char)
    (h : (hexDigitVal c).isSome) : splitSign (c :: cs) = (false, c :: cs) := by
  have hminus : c ≠ '-' := by
    intro he; rw [he] at h; simp [hexDigitVal] at h
  have hplus : c ≠ '+' := by
    intro he; rw [he] at h; simp [hexDigitVal] at h
  simp only [splitSign]
  rw [if_neg hminus, if_neg hplus]

theorem splitSign_natToHex (n : Nat) : splitSign (natToHex n) = (false, natToHex n) := by
  cases hcs : natToHex n with
  | nil => exact absurd hcs (natToHex_ne_nil n)
  | cons c cs =>
    apply splitSign_of_head_valid
    apply mem_natToHex_valid n
    rw [hcs]; simp

/-- C6: for every natural number `n`, decoding the hexadecimal encoding of
`n` — with or without a `0x` hex marker — via `HexToBigInt` returns `n`;
via `HexToInt64` it returns `n` whenever `n` is in the signed 64-bit
range; and in both converters the empty string decodes to zero. -/
theorem hex_roundtrip (n : Nat) :
    HexToBigInt (String.mk (natToHex n)) = .ok (n : Int)
    ∧ HexToBigInt (String.mk ('0' :: 'x' :: natToHex n)) = .ok (n : Int)
    ∧ (n < 2 ^ 63 → HexToInt64 (String.mk (natToHex n)) = .ok (n : Int)
        ∧ HexToInt64 (String.mk ('0' :: 'x' :: natToHex n)) = .ok (n : Int))
    ∧ HexToInt64 "" = .ok 0 ∧ HexToBigInt "" = .ok 0 := by
  have hdata : (String.mk (natToHex n)).data = natToHex n := rfl
  have hdata2 : (String.mk ('0' :: 'x' :: natToHex n)).data = '0' :: 'x' :: natToHex n := rfl
  have hstrip2 : stripHex0x ('0' :: 'x' :: natToHex n) = natToHex n := by
    simp [stripHex0x]
  have hbig : bigIntSetString16 (natToHex n) = some (n : Int) := by
    unfold bigIntSetString16
    rw [splitSign_natToHex n]
    simp [parseHexDigits_natToHex n]
  have hgo : goParseInt16 (natToHex n) = if n < 2 ^ 63 then some (n : Int) else none := by
    unfold goParseInt16
    rw [splitSign_natToHex n]
    simp [parseHexDigits_natToHex n]
  refine ⟨?_, ?_, ?_, rfl, rfl⟩
  · unfold HexToBigInt
    rw [hdata, stripHex0x_natToHex n, if_neg (natToHex_ne_nil n), hbig]
  · unfold HexToBigInt
    rw [hdata2, hstrip2, if_neg (natToHex_ne_nil n), hbig]
  · intro h64
    constructor
    · unfold HexToInt64
      rw [hdata, stripHex0x_natToHex n, if_neg (natToHex_ne_nil n), hgo, if_pos h64]
    · unfold HexToInt64
      rw [hdata2, hstrip2, if_neg (natToHex_ne_nil n), hgo, if_pos h64]

theorem hex_roundtrip_witness :
    (255 : Nat) < 2 ^ 63
    ∧ HexToInt64 (String.mk (natToHex 255)) = .ok 255
    ∧ HexToBigInt (String.mk ('0' :: 'x' :: natToHex 255)) = .ok 255 :=
  ⟨by decide, ((hex_roundtrip 255).2.2.1 (by decide)).1, (hex_roundtrip 255).2.1⟩

/-- C10: an input whose digit portion (after removing an optional `0x`
marker) is a minus sign followed by valid base-16 digits is accepted by
both `HexToInt64` (within the signed 64-bit range) and `HexToBigInt`,
which return the corresponding negative integer rather than a
malformed-hex error. -/
theorem hex_negative_parses (ds : List Char) (n : Nat)
    (hds : parseHexDigits ds = some n) :
    HexToBigInt (String.mk ('-' :: ds)) = .ok (-(n : Int))
    ∧ HexToBigInt (String.mk ('0' :: 'x' :: '-' :: ds)) = .ok (-(n : Int))
    ∧ (n ≤ 2 ^ 63 → HexToInt64 (String.mk ('-' :: ds)) = .ok (-(n : Int))
        ∧ HexToInt64 (String.mk ('0' :: 'x' :: '-' :: ds)) = .ok (-(n : Int))) := by
  obtain ⟨d, ds', rfl⟩ : ∃ d ds', ds = d :: ds' := by
    cases ds with
    | nil => simp [parseHexDigits] at hds
    | cons d ds' => exact ⟨d, ds', rfl⟩
  have hstrip : stripHex0x ('-' :: d :: ds') = '-' :: d :: ds' := by
    simp only [stripHex0x]
    rw [if_neg (fun h => absurd h.1 (by decide))]
  have hstrip2 : stripHex0x ('0' :: 'x' :: '-' :: d :: ds') = '-' :: d :: ds' := by
    simp [stripHex0x]
  have hsign : splitSign ('-' :: d :: ds') = (true, d :: ds') := by
    simp [splitSign]
  have hbig : bigIntSetString16 ('-' :: d :: ds') = some (-(n : Int)) := by
    unfold bigIntSetString16
    rw [hsign]
    simp [hds]
  have hgo : goParseInt16 ('-' :: d :: ds') =
      if n ≤ 2 ^ 63 then some (-(n : Int)) else none := by
    unfold goParseInt16
    rw [hsign]
    simp [hds]
  refine ⟨?_, ?_, ?_⟩
  · unfold HexToBigInt
    rw [show (String.mk ('-' :: d :: ds')).data = '-' :: d :: ds' from rfl,
      hstrip, if_neg (by simp), hbig]
  · unfold HexToBigInt
    rw [show (String.mk ('0' :: 'x' :: '-' :: d :: ds')).data
        = '0' :: 'x' :: '-' :: d :: ds' from rfl,
      hstrip2, if_neg (by simp), hbig]
  · intro h64
    constructor
    · unfold HexToInt64
      rw [show (String.mk ('-' :: d :: ds')).data = '-' :: d :: ds' from rfl,
        hstrip, if_neg (by simp), hgo, if_pos h64]
    · unfold HexToInt64
      rw [show (String.mk ('0' :: 'x' :: '-' :: d :: ds')).data
          = '0' :: 'x' :: '-' :: d :: ds' from rfl,
        hstrip2, if_neg (by simp), hgo, if_pos h64]

theorem hex_negative_parses_witness :
    parseHexDigits ['f', 'f'] = some 255
    ∧ (255 : Nat) ≤ 2 ^ 63
    ∧ HexToInt64 (String.mk ('-' :: ['f', 'f'])) = .ok (-255)
    ∧ HexToBigInt (String.mk ('0' :: 'x' :: '-' :: ['f', 'f'])) = .ok (-255) :=
  ⟨by decide, by decide,
    ((hex_negative_parses ['f', 'f'] 255 (by decide)).2.2 (by decide)).1,
    (hex_negative_parses ['f', 'f'] 255 (by decide)).2.1⟩

/-! ## RPC client response handling (`rpc.go`) -/

/-- `RPCError` from `rpc.go`: a JSON-RPC error object. -/
structure RPCError where
  Code : Int
  Message : String
deriving DecidableEq, Repr

/-- Go `(*RPCError).Error()`: `fmt.Sprintf("RPC error %d: %s", e.Code, e.Message)`. -/
def RPCError.errorString (e : RPCError) : String :=
  "RPC error " ++ toString e.Code ++ ": " ++ e.Message

/-- `EthTransaction` from `rpc.go`: the `eth_getTransactionByHash` envelope. -/
structure EthTransaction where
  Hash : String
  From : String
  To : String
  Value : String
  Gas : String
  GasPrice : String
  Input : String
  Nonce : String
  BlockHash : String
  BlockNumber : String
  TransactionIndex : String
deriving DecidableEq, Repr, Inhabited

/-- `EthTransactionReceipt` from `rpc.go`: the `eth_getTransactionReceipt`
envelope. -/
structure EthTransactionReceipt where
  TransactionHash : String
  BlockHash : String
  BlockNumber : String
  GasUsed : String
  CumulativeGasUsed : String
  Status : String
deriving DecidableEq, Repr

/-- Decoded state of the `result` field of a JSON-RPC response: the raw
message may be absent, the JSON literal `null`, a transaction object, or
bytes that do not decode as an `EthTransaction`. -/
inductive RawResult where
  | absent
  | nullLit
  | txObj (tx : EthTransaction)
  | invalid (s : String)
deriving DecidableEq, Repr

/-- `JSONRPCResponse` from `rpc.go`, with the raw `result` bytes modelled
by `RawResult`. -/
structure JSONRPCResponse where
  Result : RawResult
  Error : Option RPCError
deriving DecidableEq, Repr

/-- Go `string(response.Result) == "null"`: the raw result bytes are the
JSON literal `null`. -/
def rawIsNullLit : RawResult → Bool
  | .nullLit => true
  | _ => false

/-- Go `json.Unmarshal(response.Result, &tx)`: decoding succeeds exactly
when the raw result holds a transaction object. -/
def unmarshalTx : RawResult → Except String EthTransaction
  | .txObj tx => .ok tx
  | _ => .error "failed to parse transaction"

/-- `GetTransactionByHash` from `rpc.go`, given the decoded JSON-RPC
response of a successful HTTP round trip: a present `error` object is
returned first; then a `null` result maps to the not-found error; then
the result is unmarshalled. -/
def GetTransactionByHash (response : JSONRPCResponse) : Except String EthTransaction :=
  match response.Error with
  | some e => .error e.errorString
  | none =>
    if rawIsNullLit response.Result then .error "transaction not found"
    else unmarshalTx response.Result

/-- C5: a null result with no error object fails with the not-found
error; a present JSON-RPC error object fails with `RPCError{code,
message}`; and whenever an error object is present it takes precedence —
the output is the error regardless of the `result` field, which is never
decoded or returned. -/
theorem getTransactionByHash_error_precedence (response : JSONRPCResponse) :
    (∀ e, response.Error = some e →
      GetTransactionByHash response = .error e.errorString
      ∧ ∀ r : RawResult,
          GetTransactionByHash { Result := r, Error := some e } = .error e.errorString)
    ∧ (response.Error = none → response.Result = .nullLit →
        GetTransactionByHash response = .error "transaction not found") := by
  constructor
  · intro e he
    constructor
    · unfold GetTransactionByHash
      rw [he]
    · intro r
      rfl
  · intro he hr
    unfold GetTransactionByHash
    rw [he, hr]
    rfl

theorem getTransactionByHash_error_precedence_witness :
    ({ Result := .txObj default, Error := some ⟨-32000, "server busy"⟩ } :
        JSONRPCResponse).Error = some ⟨-32000, "server busy"⟩
    ∧ GetTransactionByHash { Result := .txObj default, Error := some ⟨-32000, "server busy"⟩ }
        = .error (RPCError.errorString ⟨-32000, "server busy"⟩)
    ∧ ({ Result := .nullLit, Error := none } : JSONRPCResponse).Error = none
    ∧ GetTransactionByHash { Result := .nullLit, Error := none }
        = .error "transaction not found" :=
  ⟨rfl,
    ((getTransactionByHash_error_precedence
        { Result := .txObj default, Error := some ⟨-32000, "server busy"⟩ }).1
      ⟨-32000, "server busy"⟩ rfl).1,
    rfl,
    (getTransactionByHash_error_precedence
        { Result := .nullLit, Error := none }).2 rfl rfl⟩

/-! ## Data model: `transactions` and `ingestion_events` (001_init.sql) -/

/-- `transaction_status` enum from the schema. -/
inductive Status where
  | RECEIVED
  | FETCHING
  | PENDING
  | CONFIRMED
  | FAILED
  | DROPPED
  | ERROR
deriving DecidableEq, Repr

/-- String value of a status, as persisted. -/
def Status.toStr : Status → String
  | .RECEIVED => "RECEIVED"
  | .FETCHING => "FETCHING"
  | .PENDING => "PENDING"
  | .CONFIRMED => "CONFIRMED"
  | .FAILED => "FAILED"
  | .DROPPED => "DROPPED"
  | .ERROR => "ERROR"

/-- One row of the `transactions` table; nullable columns are `Option`
fields.  The `now()` timestamps written by `updated_at` are not
modelled; `created_at` is an abstract tick used only for ordering. -/
structure TxRow where
  id : Nat
  transactionHash : String
  chainId : Int
  status : Status
  fromAddress : Option String
  toAddress : Option String
  value : Option String
  blockNumber : Option Int
  gasUsed : Option Int
  errorReason : Option String
  createdAt : Nat
deriving DecidableEq, Repr

/-- One row of the `ingestion_events` table. -/
structure IngestionEvent where
  transactionId : Nat
  previousStatus : Option Status
  newStatus : Status
  reason : String
deriving DecidableEq, Repr

/-- The store: both tables.  `events` is append-only in every operation
modelled below. -/
structure DBState where
  rows : List TxRow
  events : List IngestionEvent
deriving DecidableEq, Repr

/-! ## Chain registry (`registry.go`) -/

/-- `ChainConfig` from `registry.go` (the chain-family tag is constant
`EVM` and plays no role in the worker, so it is not modelled). -/
structure ChainConfig where
  ChainID : Int
  Name : String
  RPCURL : String
deriving DecidableEq, Repr

/-- `GetChain` from `registry.go`: look up the chain id in the registry
map, or fail with `unsupported chain ID: %d`. -/
def GetChain (chains : List ChainConfig) (chainID : Int) : Except String ChainConfig :=
  match chains.find? (fun c => c.ChainID == chainID) with
  | some config => .ok config
  | none => .error ("unsupported chain ID: " ++ toString chainID)

/-! ## Ingestion worker (`processor.go` with the chain-registry RPC path) -/

/-- The five storage operations performed inside one `updateStatus`
storage transaction, as failure-injection points. -/
inductive UpdOp where
  | beginTx
  | selectStatus
  | updateRow
  | insertEvent
  | commitTx
deriving DecidableEq, Repr

/-- Failure injection under which every storage operation succeeds. -/
def noStorageFail : UpdOp → Bool := fun _ => false

/-- Status of the row with the given id, if present. -/
def rowStatus (db : DBState) (txID : Nat) : Option Status :=
  (db.rows.find? (fun r => r.id == txID)).map (·.status)

/-- `updateStatus` from the worker: inside one storage transaction it
reads the current status, updates `status`/`error_reason` on the row,
and inserts one `ingestion_events` row whose reason is the error reason
when non-empty and a `Status changed by worker: old → new` message
otherwise.  A failure at any of the five operations rolls the whole
transaction back, so the new state is only produced on the `.ok` path
and an error leaves the store untouched. -/
def updateStatus (failAt : UpdOp → Bool) (db : DBState) (txID : Nat)
    (newStatus : Status) (errorReason : String) : Except String DBState :=
  if failAt .beginTx then .error "begin failed"
  else
    match db.rows.find? (fun r => r.id == txID) with
    | none => .error "no rows in result set"
    | some row =>
      if failAt .selectStatus then .error "select failed"
      else if failAt .updateRow then .error "update failed"
      else if failAt .insertEvent then .error "insert failed"
      else if failAt .commitTx then .error "commit failed"
      else .ok {
        rows := db.rows.map (fun r =>
          if r.id == txID then
            { r with status := newStatus, errorReason := some errorReason }
          else r),
        events := db.events ++ [{
          transactionId := txID,
          previousStatus := some row.status,
          newStatus := newStatus,
          reason := if errorReason ≠ "" then errorReason
            else "Status changed by worker: " ++ row.status.toStr ++ " → " ++ newStatus.toStr }] }

/-- Behaviour of the JSON-RPC node as seen through the client's two
operations (keyed by endpoint URL and transaction hash): the outcome of
`GetTransactionByHash` and `GetTransactionReceipt`. -/
structure RPCBehavior where
  txByHash : String → String → Except String EthTransaction
  receiptByHash : String → String → Except String EthTransactionReceipt

/-- Observable network-side activity of one `fetchFromBlockchain` run: how many
RPC clients were constructed and which RPC methods were invoked. -/
structure FetchLog where
  clientsBuilt : Nat
  rpcCalls : List String
deriving DecidableEq, Repr

/-- `BlockchainTransaction` from the worker: normalized data, with Go
zero values (empty string / 0) for fields that were never assigned. -/
structure BlockchainTransaction where
  Hash : String
  ChainID : Int
  FromAddress : String
  ToAddress : String
  Value : String
  BlockNumber : Int
  GasUsed : Int
  Status : String
deriving DecidableEq, Repr

/-- The straight-line normalization block of `fetchFromBlockchain`:
build the `BlockchainTransaction` struct from the fetched envelope and
the (possibly absent) receipt.  Each decode failure is logged and skips
only its own assignment, leaving the Go zero value. -/
def buildTxData (ethTx : EthTransaction) (chainID : Int)
    (receipt : Option EthTransactionReceipt) : BlockchainTransaction :=
  let txData : BlockchainTransaction :=
    { Hash := ethTx.Hash, ChainID := chainID, FromAddress := ethTx.From,
      ToAddress := ethTx.To, Value := "", BlockNumber := 0, GasUsed := 0, Status := "" }
  let txData := if ethTx.Value ≠ "" then
      match HexToDecimalString ethTx.Value with
      | .ok v => { txData with Value := v }
      | .error _ => txData
    else txData
  let txData := if ethTx.BlockNumber ≠ "" then
      match HexToInt64 ethTx.BlockNumber with
      | .ok b => { txData with BlockNumber := b }
      | .error _ => txData
    else txData
  let txData := match receipt with
    | some rc =>
      if rc.GasUsed ≠ "" then
        let t := match HexToInt64 rc.GasUsed with
          | .ok g => { txData with GasUsed := g }
          | .error _ => txData
        if rc.Status = "0x1" then { t with Status := "success" }
        else if rc.Status = "0x0" then { t with Status := "failed" }
        else t
      else txData
    | none => txData
  txData

/-- `fetchFromBlockchain` from the worker: resolve the chain config,
build an RPC client, fetch the transaction (hard failure) and the
receipt (tolerated failure), then normalize via `buildTxData`. -/
def fetchFromBlockchain (registry : List ChainConfig) (rpc : RPCBehavior)
    (hash : String) (chainID : Int) : Except String BlockchainTransaction × FetchLog :=
  match GetChain registry chainID with
  | .error e => (.error ("unsupported chain: " ++ e), ⟨0, []⟩)
  | .ok chainConfig =>
    match rpc.txByHash chainConfig.RPCURL hash with
    | .error e =>
      (.error ("failed to fetch transaction: " ++ e), ⟨1, ["eth_getTransactionByHash"]⟩)
    | .ok ethTx =>
      (.ok (buildTxData ethTx chainID (rpc.receiptByHash chainConfig.RPCURL hash).toOption),
        ⟨1, ["eth_getTransactionByHash", "eth_getTransactionReceipt"]⟩)

/-- Decimal-digit character test, for the numeric-literal syntax check. -/
def isDigitChar (c : Char) : Bool := '0' ≤ c ∧ c ≤ '9'

/-- Model of the input syntax Postgres accepts for the `value NUMERIC`
parameter of the normalization UPDATE, restricted to the strings the
worker can produce (the Go zero value `""` or a `big.Int` decimal
string): an optional sign followed by at least one digit.  The empty
string is rejected (`invalid input syntax for type numeric`). -/
def isValidNumeric (s : String) : Bool :=
  match s.data with
  | [] => false
  | c :: cs =>
    if c = '-' ∨ c = '+' then !cs.isEmpty && cs.all isDigitChar
    else (c :: cs).all isDigitChar

/-- `normalizeAndStore` from the worker: one UPDATE writing all five
normalized columns of the row from the `BlockchainTransaction` struct
values unconditionally, returning the `Exec` error when it fails.  The
deterministic failure is modelled: the schema declares `value NUMERIC`,
so Postgres rejects the UPDATE whenever `data.Value` is not a valid
numeric literal — in particular the Go zero value `""` left by an empty
or undecodable value field — and no column is written.  (Transient
storage failures are modelled on `updateStatus`.) -/
def normalizeAndStore (db : DBState) (txID : Nat) (data : BlockchainTransaction) :
    Except String DBState :=
  if isValidNumeric data.Value then
    .ok { db with rows := db.rows.map (fun r =>
      if r.id == txID then
        { r with
          fromAddress := some data.FromAddress,
          toAddress := some data.ToAddress,
          value := some data.Value,
          blockNumber := some data.BlockNumber,
          gasUsed := some data.GasUsed }
      else r) }
  else .error "invalid input syntax for type numeric"

/-- `processTransaction` from the worker: FETCHING transition, fetch,
normalize-and-store, CONFIRMED transition.  A fetch failure writes
ERROR with the error text; a normalization failure writes ERROR with
the storage error text and returns it wrapped in
`failed to normalize transaction:` (each ERROR write's own failure is
discarded, as in the Go code). -/
def processTransaction (failAt : UpdOp → Bool) (registry : List ChainConfig)
    (rpc : RPCBehavior) (db : DBState) (id : Nat) (hash : String) (chainID : Int) :
    DBState × Except String Unit × FetchLog :=
  match updateStatus failAt db id .FETCHING "" with
  | .error e => (db, .error ("failed to update status to FETCHING: " ++ e), ⟨0, []⟩)
  | .ok db1 =>
    match fetchFromBlockchain registry rpc hash chainID with
    | (.error e, log) =>
      let db2 := match updateStatus failAt db1 id .ERROR e with
        | .ok d => d
        | .error _ => db1
      (db2, .error e, log)
    | (.ok txData, log) =>
      match normalizeAndStore db1 id txData with
      | .error e =>
        let db2 := match updateStatus failAt db1 id .ERROR e with
          | .ok d => d
          | .error _ => db1
        (db2, .error ("failed to normalize transaction: " ++ e), log)
      | .ok db2 =>
        match updateStatus failAt db2 id .CONFIRMED "" with
        | .error e => (db2, .error ("failed to update status to CONFIRMED: " ++ e), log)
        | .ok db3 => (db3, .ok (), log)

/-- Boolean order on rows by creation time, the `ORDER BY created_at
ASC` of the batch query. -/
def rowLE (a b : TxRow) : Bool := a.createdAt ≤ b.createdAt

/-- Insert a row into a list sorted by creation time, keeping it sorted. -/
def insertByCreated (r : TxRow) : List TxRow → List TxRow
  | [] => [r]
  | x :: xs => if rowLE r x then r :: x :: xs else x :: insertByCreated r xs

/-- Sort rows by creation time ascending (the `ORDER BY created_at ASC`
of the batch query, as an executable insertion sort). -/
def sortByCreated : List TxRow → List TxRow
  | [] => []
  | x :: xs => insertByCreated x (sortByCreated xs)

/-- The batch query of `processBatch`: rows with status `RECEIVED`,
ordered by `created_at` ascending, limited to the batch size. -/
def selectBatch (db : DBState) (batchSize : Nat) : List TxRow :=
  (sortByCreated (db.rows.filter (fun r => r.status == Status.RECEIVED))).take batchSize

/-- The row loop of `processBatch`: process each selected row in order,
threading the store; an individual item's failure is logged and the
loop continues with the next row. -/
def runBatch (failAt : UpdOp → Bool) (registry : List ChainConfig) (rpc : RPCBehavior) :
    DBState → List TxRow → DBState × List (Nat × Except String Unit)
  | db, [] => (db, [])
  | db, r :: rs =>
    let step := processTransaction failAt registry rpc db r.id r.transactionHash r.chainId
    let rest := runBatch failAt registry rpc step.1 rs
    (rest.1, (r.id, step.2.1) :: rest.2)

/-- `processBatch` from the worker: a failed batch query aborts the tick
with an error; otherwise every selected row is processed sequentially. -/
def processBatch (failQuery : Bool) (failAt : UpdOp → Bool) (registry : List ChainConfig)
    (rpc : RPCBehavior) (db : DBState) (batchSize : Nat) :
    Except String (DBState × List (Nat × Except String Unit)) :=
  if failQuery then .error "failed to query RECEIVED transactions"
  else .ok (runBatch failAt registry rpc db (selectBatch db batchSize))

/-! ## HTTP submission handler (`transactions.go`) -/

/-- `CreateTransaction` from `transactions.go`: validate, idempotent
insert (`ON CONFLICT (transaction_hash, chain_id) DO NOTHING` plus a
fetch of the existing row when the insert returned nothing), then an
ingestion event with no previous status and reason
`transaction registered`. -/
def CreateTransaction (db : DBState) (transactionHash : String) (chainID : Int)
    (newId : Nat) (now : Nat) : Except String (DBState × Nat × Status) :=
  if transactionHash = "" ∨ chainID = 0 then .error "missing required fields"
  else
    match db.rows.find? (fun r =>
        r.transactionHash == transactionHash && r.chainId == chainID) with
    | some row =>
      .ok ({ db with events := db.events ++
          [{ transactionId := row.id, previousStatus := none,
             newStatus := row.status, reason := "transaction registered" }] },
        row.id, row.status)
    | none =>
      let newRow : TxRow :=
        { id := newId, transactionHash := transactionHash, chainId := chainID,
          status := .RECEIVED, fromAddress := none, toAddress := none, value := none,
          blockNumber := none, gasUsed := none, errorReason := none, createdAt := now }
      let newEvent : IngestionEvent :=
        { transactionId := newId, previousStatus := none,
          newStatus := Status.RECEIVED, reason := "transaction registered" }
      .ok ({ rows := db.rows ++ [newRow], events := db.events ++ [newEvent] },
        newId, Status.RECEIVED)

/-! ## Helper lemmas about row lookup -/

theorem find?_id_map (rows : List TxRow) (txID : Nat) (f : TxRow → TxRow)
    (hf : ∀ r, (f r).id = r.id) :
    (rows.map (fun r => if r.id == txID then f r else r)).find? (fun r => r.id == txID)
      = (rows.find? (fun r => r.id == txID)).map f := by
  induction rows with
  | nil => rfl
  | cons a l ih =>
    simp only [List.map_cons]
    by_cases ha : (a.id == txID) = true
    · rw [if_pos ha]
      rw [List.find?_cons_of_pos (p := fun r : TxRow => r.id == txID) _
        (show ((f a).id == txID) = true by rw [hf a]; exact ha)]
      rw [List.find?_cons_of_pos (p := fun r : TxRow => r.id == txID) _ ha]
      rfl
    · rw [if_neg ha]
      rw [List.find?_cons_of_neg (p := fun r : TxRow => r.id == txID) _ ha]
      rw [List.find?_cons_of_neg (p := fun r : TxRow => r.id == txID) _ ha]
      exact ih

/-- On the no-failure path, `updateStatus` reduces to its committed
store. -/
theorem updateStatus_noFail (db : DBState) (txID : Nat) (newStatus : Status)
    (errorReason : String) (row : TxRow)
    (hrow : db.rows.find? (fun r => r.id == txID) = some row) :
    updateStatus noStorageFail db txID newStatus errorReason = .ok {
      rows := db.rows.map (fun r =>
        if r.id == txID then
          { r with status := newStatus, errorReason := some errorReason }
        else r),
      events := db.events ++ [{
        transactionId := txID,
        previousStatus := some row.status,
        newStatus := newStatus,
        reason := if errorReason ≠ "" then errorReason
          else "Status changed by worker: " ++ row.status.toStr ++ " → " ++ newStatus.toStr }] } := by
  unfold updateStatus noStorageFail
  rw [hrow]
  rfl

/-! ## C3: atomicity of a status transition -/

/-- C3: a status transition is one atomic storage transaction: on
success the row's status (and error reason) are updated and exactly one
audit event is appended, recording the previous status read inside the
transaction and the new status, so the row's status agrees with the
most recent audit event; on failure of any of the five storage steps no
new state is produced (the transaction rolls back, store unchanged). -/
theorem updateStatus_atomic (failAt : UpdOp → Bool) (db : DBState) (txID : Nat)
    (newStatus : Status) (errorReason : String) (row : TxRow)
    (hrow : db.rows.find? (fun r => r.id == txID) = some row) :
    ∀ db', updateStatus failAt db txID newStatus errorReason = .ok db' →
      db'.events = db.events ++ [{
          transactionId := txID,
          previousStatus := some row.status,
          newStatus := newStatus,
          reason := if errorReason ≠ "" then errorReason
            else "Status changed by worker: " ++ row.status.toStr ++ " → " ++ newStatus.toStr }]
      ∧ db'.rows = db.rows.map (fun r =>
          if r.id == txID then
            { r with status := newStatus, errorReason := some errorReason }
          else r)
      ∧ rowStatus db' txID = some newStatus
      ∧ db'.events.getLast? = some {
          transactionId := txID,
          previousStatus := some row.status,
          newStatus := newStatus,
          reason := if errorReason ≠ "" then errorReason
            else "Status changed by worker: " ++ row.status.toStr ++ " → " ++ newStatus.toStr } := by
  intro db' h
  unfold updateStatus at h
  split at h
  · exact Except.noConfusion h
  · split at h
    · exact Except.noConfusion h
    · rename_i row' heq
      rw [hrow] at heq
      injection heq with heq'
      subst heq'
      split at h
      · exact Except.noConfusion h
      · split at h
        · exact Except.noConfusion h
        · split at h
          · exact Except.noConfusion h
          · split at h
            · exact Except.noConfusion h
            · injection h with h
              subst h
              refine ⟨rfl, rfl, ?_, ?_⟩
              · unfold rowStatus
                dsimp only
                rw [find?_id_map db.rows txID
                  (fun r => { r with status := newStatus, errorReason := some errorReason })
                  (fun r => rfl)]
                rw [hrow]
                rfl
              · exact List.getLast?_concat _

/-- Sample single-row store used by concrete witnesses. -/
def rowSample : TxRow :=
  { id := 7, transactionHash := "0xaa", chainId := 1,
    status := .RECEIVED, fromAddress := none, toAddress := none, value := none,
    blockNumber := none, gasUsed := none, errorReason := none, createdAt := 0 }

/-- Sample store holding only `rowSample`. -/
def dbSample : DBState := { rows := [rowSample], events := [] }

/-- Row `rowSample` as committed after its transition to `FETCHING`. -/
def rowSampleFetching : TxRow :=
  { id := 7, transactionHash := "0xaa", chainId := 1,
    status := .FETCHING, fromAddress := none, toAddress := none, value := none,
    blockNumber := none, gasUsed := none, errorReason := some "", createdAt := 0 }

/-- Audit event of the `RECEIVED → FETCHING` transition of `rowSample`. -/
def evSampleFetching : IngestionEvent :=
  { transactionId := 7, previousStatus := some .RECEIVED, newStatus := .FETCHING,
    reason := "Status changed by worker: RECEIVED → FETCHING" }

/-- Committed state of `dbSample` after the transition of `rowSample`
to `FETCHING`. -/
def dbSampleFetching : DBState :=
  { rows := [rowSampleFetching], events := [evSampleFetching] }

theorem updateStatus_atomic_witness :
    dbSample.rows.find? (fun r => r.id == 7) = some rowSample
    ∧ updateStatus noStorageFail dbSample 7 .FETCHING "" = .ok dbSampleFetching
    ∧ rowStatus dbSampleFetching 7 = some .FETCHING
    ∧ dbSampleFetching.events.getLast? = some evSampleFetching := by
  refine ⟨rfl, rfl, ?_, ?_⟩
  · exact (updateStatus_atomic noStorageFail dbSample 7 .FETCHING "" rowSample rfl
      dbSampleFetching rfl).2.2.1
  · exact (updateStatus_atomic noStorageFail dbSample 7 .FETCHING "" rowSample rfl
      dbSampleFetching rfl).2.2.2

/-! ## Helper lemmas for the worker's success and error paths -/

theorem ne_empty_of_append (s t : String) (hs : s.data ≠ []) : s ++ t ≠ "" := by
  intro h
  have hd := congrArg String.data h
  rw [String.data_append] at hd
  exact hs (List.append_eq_nil.mp hd).1

/-- `updateStatus` on the no-failure path with an empty error reason. -/
theorem updateStatus_noFail_ok (db : DBState) (txID : Nat) (newStatus : Status)
    (row : TxRow) (hrow : db.rows.find? (fun r => r.id == txID) = some row) :
    updateStatus noStorageFail db txID newStatus "" = .ok {
      rows := db.rows.map (fun r =>
        if r.id == txID then
          { r with status := newStatus, errorReason := some "" }
        else r),
      events := db.events ++ [{
        transactionId := txID,
        previousStatus := some row.status,
        newStatus := newStatus,
        reason := "Status changed by worker: " ++ row.status.toStr ++ " → " ++ newStatus.toStr }] } := by
  rw [updateStatus_noFail db txID newStatus "" row hrow]
  simp

/-- `updateStatus` on the no-failure path with a non-empty error reason. -/
theorem updateStatus_noFail_err (db : DBState) (txID : Nat) (newStatus : Status)
    (er : String) (row : TxRow) (her : er ≠ "")
    (hrow : db.rows.find? (fun r => r.id == txID) = some row) :
    updateStatus noStorageFail db txID newStatus er = .ok {
      rows := db.rows.map (fun r =>
        if r.id == txID then
          { r with status := newStatus, errorReason := some er }
        else r),
      events := db.events ++ [{
        transactionId := txID,
        previousStatus := some row.status,
        newStatus := newStatus,
        reason := er }] } := by
  rw [updateStatus_noFail db txID newStatus er row hrow]
  simp [her]

theorem find?_rows_update (rows : List TxRow) (txID : Nat) (st : Status) (er : String)
    (row : TxRow) (hrow : rows.find? (fun r => r.id == txID) = some row) :
    (rows.map (fun r =>
        if r.id == txID then { r with status := st, errorReason := some er } else r)).find?
      (fun r => r.id == txID)
    = some { row with status := st, errorReason := some er } := by
  rw [find?_id_map rows txID
    (fun r => { r with status := st, errorReason := some er }) (fun r => rfl), hrow]
  rfl

theorem find?_rows_normalize (rows : List TxRow) (txID : Nat)
    (data : BlockchainTransaction) (row : TxRow)
    (hrow : rows.find? (fun r => r.id == txID) = some row) :
    (rows.map (fun r =>
        if r.id == txID then
          { r with
            fromAddress := some data.FromAddress,
            toAddress := some data.ToAddress,
            value := some data.Value,
            blockNumber := some data.BlockNumber,
            gasUsed := some data.GasUsed }
        else r)).find? (fun r => r.id == txID)
    = some { row with
        fromAddress := some data.FromAddress,
        toAddress := some data.ToAddress,
        value := some data.Value,
        blockNumber := some data.BlockNumber,
        gasUsed := some data.GasUsed } := by
  rw [find?_id_map rows txID
    (fun r => { r with
      fromAddress := some data.FromAddress,
      toAddress := some data.ToAddress,
      value := some data.Value,
      blockNumber := some data.BlockNumber,
      gasUsed := some data.GasUsed }) (fun r => rfl), hrow]
  rfl

/-- `normalizeAndStore` on the success path: the value string is a
valid numeric literal and the UPDATE writes all five columns. -/
theorem normalizeAndStore_ok (db : DBState) (txID : Nat) (data : BlockchainTransaction)
    (hok : isValidNumeric data.Value = true) :
    normalizeAndStore db txID data = .ok { db with rows := db.rows.map (fun r =>
      if r.id == txID then
        { r with
          fromAddress := some data.FromAddress,
          toAddress := some data.ToAddress,
          value := some data.Value,
          blockNumber := some data.BlockNumber,
          gasUsed := some data.GasUsed }
      else r) } := by
  unfold normalizeAndStore
  rw [hok]
  rfl

/-- `normalizeAndStore` on the deterministic failure path: an invalid
value string makes Postgres reject the UPDATE; no column is written. -/
theorem normalizeAndStore_err (db : DBState) (txID : Nat) (data : BlockchainTransaction)
    (hbad : isValidNumeric data.Value = false) :
    normalizeAndStore db txID data = .error "invalid input syntax for type numeric" := by
  unfold normalizeAndStore
  rw [hbad]
  rfl

/-! ## Field-level facts about the normalization block -/

set_option maxRecDepth 8000 in
/-- Without a receipt, the normalized gas-used value is the Go zero
value `0`. -/
theorem buildTxData_GasUsed_none (ethTx : EthTransaction) (chainID : Int) :
    (buildTxData ethTx chainID none).GasUsed = 0 := by
  unfold buildTxData
  dsimp only
  repeat first
  | rfl
  | dsimp only
  | split

set_option maxRecDepth 8000 in
/-- The from address is passed through unconditionally. -/
theorem buildTxData_FromAddress (ethTx : EthTransaction) (chainID : Int)
    (receipt : Option EthTransactionReceipt) :
    (buildTxData ethTx chainID receipt).FromAddress = ethTx.From := by
  unfold buildTxData
  dsimp only
  repeat first
  | rfl
  | dsimp only
  | split

set_option maxRecDepth 8000 in
/-- The to address is passed through unconditionally. -/
theorem buildTxData_ToAddress (ethTx : EthTransaction) (chainID : Int)
    (receipt : Option EthTransactionReceipt) :
    (buildTxData ethTx chainID receipt).ToAddress = ethTx.To := by
  unfold buildTxData
  dsimp only
  repeat first
  | rfl
  | dsimp only
  | split

set_option maxRecDepth 8000 in
/-- A failed block-number decode leaves the Go zero value `0`. -/
theorem buildTxData_BlockNumber_err (ethTx : EthTransaction) (chainID : Int)
    (receipt : Option EthTransactionReceipt) (e : String)
    (hne : ethTx.BlockNumber ≠ "") (herr : HexToInt64 ethTx.BlockNumber = .error e) :
    (buildTxData ethTx chainID receipt).BlockNumber = 0 := by
  unfold buildTxData
  dsimp only
  rw [if_pos hne, herr]
  repeat first
  | rfl
  | dsimp only
  | split

set_option maxRecDepth 8000 in
/-- A failed gas-used decode from a present receipt leaves the Go zero
value `0`. -/
theorem buildTxData_GasUsed_err (ethTx : EthTransaction) (chainID : Int)
    (rc : EthTransactionReceipt) (e : String)
    (hg : rc.GasUsed ≠ "") (herr : HexToInt64 rc.GasUsed = .error e) :
    (buildTxData ethTx chainID (some rc)).GasUsed = 0 := by
  unfold buildTxData
  dsimp only
  rw [if_pos hg, herr]
  repeat first
  | rfl
  | dsimp only
  | split

set_option maxRecDepth 8000 in
/-- An empty value field skips the decode and leaves the Go zero value
`""`. -/
theorem buildTxData_Value_empty (ethTx : EthTransaction) (chainID : Int)
    (receipt : Option EthTransactionReceipt) (hv : ethTx.Value = "") :
    (buildTxData ethTx chainID receipt).Value = "" := by
  unfold buildTxData
  dsimp only
  rw [if_neg (c := ethTx.Value ≠ "") (fun hne => hne hv)]
  repeat first
  | rfl
  | dsimp only
  | split

set_option maxRecDepth 8000 in
/-- A failed value decode leaves the Go zero value `""`. -/
theorem buildTxData_Value_err (ethTx : EthTransaction) (chainID : Int)
    (receipt : Option EthTransactionReceipt) (e : String)
    (hne : ethTx.Value ≠ "") (herr : HexToDecimalString ethTx.Value = .error e) :
    (buildTxData ethTx chainID receipt).Value = "" := by
  unfold buildTxData
  dsimp only
  rw [if_pos hne, herr]
  repeat first
  | rfl
  | dsimp only
  | split

/-! ## C4: unsupported chain -/

/-- C4: when the chain id has no registry entry, the worker moves the
item from `FETCHING` straight to `ERROR` with a reason naming the chain
id, constructs no RPC client and makes no RPC call: exactly the two
audit events `old → FETCHING` and `FETCHING → ERROR` are appended. -/
theorem unsupported_chain_no_rpc (registry : List ChainConfig) (rpc : RPCBehavior)
    (db : DBState) (id : Nat) (hash : String) (chainID : Int) (row : TxRow)
    (hrow : db.rows.find? (fun r => r.id == id) = some row)
    (hchain : registry.find? (fun c => c.ChainID == chainID) = none) :
    (processTransaction noStorageFail registry rpc db id hash chainID).2.2
      = { clientsBuilt := 0, rpcCalls := [] }
    ∧ (processTransaction noStorageFail registry rpc db id hash chainID).2.1
      = .error ("unsupported chain: " ++ ("unsupported chain ID: " ++ toString chainID))
    ∧ rowStatus (processTransaction noStorageFail registry rpc db id hash chainID).1 id
      = some .ERROR
    ∧ ((processTransaction noStorageFail registry rpc db id hash chainID).1.rows.find?
        (fun r => r.id == id)).map (·.errorReason)
      = some (some ("unsupported chain: " ++ ("unsupported chain ID: " ++ toString chainID)))
    ∧ (processTransaction noStorageFail registry rpc db id hash chainID).1.events
      = db.events ++
        [{ transactionId := id, previousStatus := some row.status, newStatus := .FETCHING,
           reason := "Status changed by worker: " ++ row.status.toStr ++ " → "
             ++ Status.FETCHING.toStr },
         { transactionId := id, previousStatus := some Status.FETCHING, newStatus := .ERROR,
           reason := "unsupported chain: " ++ ("unsupported chain ID: " ++ toString chainID) }] := by
  have h1 := updateStatus_noFail_ok db id .FETCHING row hrow
  have hchainE : GetChain registry chainID
      = .error ("unsupported chain ID: " ++ toString chainID) := by
    unfold GetChain; rw [hchain]
  have hfetch : fetchFromBlockchain registry rpc hash chainID
      = (.error ("unsupported chain: " ++ ("unsupported chain ID: " ++ toString chainID)),
         ⟨0, []⟩) := by
    simp only [fetchFromBlockchain, hchainE]
  have hf1 := find?_rows_update db.rows id Status.FETCHING "" row hrow
  have h2 := updateStatus_noFail_err
    { rows := db.rows.map (fun r =>
        if r.id == id then { r with status := Status.FETCHING, errorReason := some "" } else r),
      events := db.events ++ [{
        transactionId := id, previousStatus := some row.status, newStatus := .FETCHING,
        reason := "Status changed by worker: " ++ row.status.toStr ++ " → "
          ++ Status.FETCHING.toStr }] }
    id .ERROR ("unsupported chain: " ++ ("unsupported chain ID: " ++ toString chainID))
    { row with status := Status.FETCHING, errorReason := some "" }
    (ne_empty_of_append _ _ (by decide)) hf1
  have hf2 := find?_rows_update
    (db.rows.map (fun r =>
      if r.id == id then { r with status := Status.FETCHING, errorReason := some "" } else r))
    id Status.ERROR ("unsupported chain: " ++ ("unsupported chain ID: " ++ toString chainID))
    { row with status := Status.FETCHING, errorReason := some "" } hf1
  refine ⟨?_, ?_, ?_, ?_, ?_⟩
  · simp only [processTransaction, h1, hfetch, h2]
  · simp only [processTransaction, h1, hfetch, h2]
  · simp only [processTransaction, h1, hfetch, h2, rowStatus, hf2]
    rfl
  · simp only [processTransaction, h1, hfetch, h2, hf2]
    rfl
  · simp only [processTransaction, h1, hfetch, h2, List.append_assoc]
    rfl

/-- Registered chain 1, as seeded by `NewChainRegistry`. -/
def chainCfg1 : ChainConfig :=
  { ChainID := 1, Name := "Ethereum Mainnet", RPCURL := "https://mainnet.infura.io/v3/testkey" }

/-- Sample fetched transaction envelope with well-formed hex fields. -/
def ethTxSample : EthTransaction :=
  { Hash := "0xaa", From := "0xsender", To := "0xrecipient", Value := "0x1", Gas := "0x5208",
    GasPrice := "0x1", Input := "0x", Nonce := "0x0", BlockHash := "0xbh",
    BlockNumber := "0x10", TransactionIndex := "0x0" }

/-- Node behaviour: the transaction fetch succeeds, the receipt fetch
fails with NotFound (pending transaction). -/
def rpcNoReceipt : RPCBehavior :=
  { txByHash := fun _ _ => .ok ethTxSample,
    receiptByHash := fun _ _ => .error "receipt not found (transaction may be pending)" }

theorem unsupported_chain_no_rpc_witness :
    dbSample.rows.find? (fun r => r.id == 7) = some rowSample
    ∧ ([chainCfg1].find? (fun c => c.ChainID == (999 : Int))) = none
    ∧ (processTransaction noStorageFail [chainCfg1] rpcNoReceipt dbSample 7 "0xaa" 999).2.2
        = { clientsBuilt := 0, rpcCalls := [] }
    ∧ rowStatus
        (processTransaction noStorageFail [chainCfg1] rpcNoReceipt dbSample 7 "0xaa" 999).1 7
        = some .ERROR := by
  refine ⟨rfl, rfl, ?_, ?_⟩
  · exact (unsupported_chain_no_rpc [chainCfg1] rpcNoReceipt dbSample 7 "0xaa" 999
      rowSample rfl rfl).1
  · exact (unsupported_chain_no_rpc [chainCfg1] rpcNoReceipt dbSample 7 "0xaa" 999
      rowSample rfl rfl).2.2.1

/-! ## The confirmed path of `processTransaction` -/

set_option maxRecDepth 8000 in
/-- When the chain is registered, the transaction fetch succeeds and no
storage operation fails, `processTransaction` succeeds: the row ends in
`CONFIRMED` and the single normalization update has written all five
normalized columns from the `BlockchainTransaction` struct. -/
theorem processTransaction_confirmed (registry : List ChainConfig) (rpc : RPCBehavior)
    (db : DBState) (id : Nat) (hash : String) (chainID : Int) (row : TxRow)
    (cfg : ChainConfig) (ethTx : EthTransaction)
    (hrow : db.rows.find? (fun r => r.id == id) = some row)
    (hchain : registry.find? (fun c => c.ChainID == chainID) = some cfg)
    (htx : rpc.txByHash cfg.RPCURL hash = .ok ethTx)
    (hnum : isValidNumeric (buildTxData ethTx chainID
      (rpc.receiptByHash cfg.RPCURL hash).toOption).Value = true) :
    (processTransaction noStorageFail registry rpc db id hash chainID).2.1 = .ok ()
    ∧ (processTransaction noStorageFail registry rpc db id hash chainID).1.rows.find?
        (fun r => r.id == id)
      = some { row with
          status := Status.CONFIRMED,
          errorReason := some "",
          fromAddress := some (buildTxData ethTx chainID
            (rpc.receiptByHash cfg.RPCURL hash).toOption).FromAddress,
          toAddress := some (buildTxData ethTx chainID
            (rpc.receiptByHash cfg.RPCURL hash).toOption).ToAddress,
          value := some (buildTxData ethTx chainID
            (rpc.receiptByHash cfg.RPCURL hash).toOption).Value,
          blockNumber := some (buildTxData ethTx chainID
            (rpc.receiptByHash cfg.RPCURL hash).toOption).BlockNumber,
          gasUsed := some (buildTxData ethTx chainID
            (rpc.receiptByHash cfg.RPCURL hash).toOption).GasUsed } := by
  have h1 := updateStatus_noFail_ok db id .FETCHING row hrow
  have hchainE : GetChain registry chainID = .ok cfg := by
    unfold GetChain; rw [hchain]
  have hfetch : fetchFromBlockchain registry rpc hash chainID
      = (.ok (buildTxData ethTx chainID (rpc.receiptByHash cfg.RPCURL hash).toOption),
         ⟨1, ["eth_getTransactionByHash", "eth_getTransactionReceipt"]⟩) := by
    simp only [fetchFromBlockchain, hchainE, htx]
  have hf1 := find?_rows_update db.rows id Status.FETCHING "" row hrow
  have hf2 := find?_rows_normalize
    (db.rows.map (fun r =>
      if r.id == id then { r with status := Status.FETCHING, errorReason := some "" } else r))
    id (buildTxData ethTx chainID (rpc.receiptByHash cfg.RPCURL hash).toOption)
    { row with status := Status.FETCHING, errorReason := some "" } hf1
  have h3 := updateStatus_noFail_ok
    { rows := (db.rows.map (fun r =>
        if r.id == id then { r with status := Status.FETCHING, errorReason := some "" } else r)).map
        (fun r =>
          if r.id == id then
            { r with
              fromAddress := some (buildTxData ethTx chainID
                (rpc.receiptByHash cfg.RPCURL hash).toOption).FromAddress,
              toAddress := some (buildTxData ethTx chainID
                (rpc.receiptByHash cfg.RPCURL hash).toOption).ToAddress,
              value := some (buildTxData ethTx chainID
                (rpc.receiptByHash cfg.RPCURL hash).toOption).Value,
              blockNumber := some (buildTxData ethTx chainID
                (rpc.receiptByHash cfg.RPCURL hash).toOption).BlockNumber,
              gasUsed := some (buildTxData ethTx chainID
                (rpc.receiptByHash cfg.RPCURL hash).toOption).GasUsed }
          else r),
      events := db.events ++ [{
        transactionId := id, previousStatus := some row.status, newStatus := .FETCHING,
        reason := "Status changed by worker: " ++ row.status.toStr ++ " → "
          ++ Status.FETCHING.toStr }] }
    id .CONFIRMED _ hf2
  have hns := normalizeAndStore_ok
    { rows := db.rows.map (fun r =>
        if r.id == id then { r with status := Status.FETCHING, errorReason := some "" } else r),
      events := db.events ++ [{
        transactionId := id, previousStatus := some row.status, newStatus := .FETCHING,
        reason := "Status changed by worker: " ++ row.status.toStr ++ " → "
          ++ Status.FETCHING.toStr }] }
    id (buildTxData ethTx chainID (rpc.receiptByHash cfg.RPCURL hash).toOption) hnum
  constructor
  · simp only [processTransaction, h1, hfetch, hns, h3]
  · simp only [processTransaction, h1, hfetch, hns, h3]
    rw [find?_rows_update
      (List.map (fun r =>
          if r.id == id then
            { r with
              fromAddress := some (buildTxData ethTx chainID
                (rpc.receiptByHash cfg.RPCURL hash).toOption).FromAddress,
              toAddress := some (buildTxData ethTx chainID
                (rpc.receiptByHash cfg.RPCURL hash).toOption).ToAddress,
              value := some (buildTxData ethTx chainID
                (rpc.receiptByHash cfg.RPCURL hash).toOption).Value,
              blockNumber := some (buildTxData ethTx chainID
                (rpc.receiptByHash cfg.RPCURL hash).toOption).BlockNumber,
              gasUsed := some (buildTxData ethTx chainID
                (rpc.receiptByHash cfg.RPCURL hash).toOption).GasUsed }
          else r)
        (db.rows.map (fun r =>
          if r.id == id then { r with status := Status.FETCHING, errorReason := some "" } else r)))
      id Status.CONFIRMED "" _ hf2]

/-! ## C1: missing receipt -/

/-- C1 counterexample: at this concrete input the transaction fetch
succeeds and the receipt fetch fails with NotFound; the item reaches
`CONFIRMED`, but the stored gas_used is `some 0` — the normalization
update sets the column to the Go zero value, it is not left unset as
the claim states. -/
theorem receipt_missing_gas_set_cex :
    rowStatus (processTransaction noStorageFail [chainCfg1] rpcNoReceipt dbSample 7 "0xaa" 1).1 7
      = some Status.CONFIRMED
    ∧ ((processTransaction noStorageFail [chainCfg1] rpcNoReceipt dbSample 7 "0xaa" 1).1.rows.find?
        (fun r => r.id == 7)).map (·.gasUsed) = some (some 0)
    ∧ ((processTransaction noStorageFail [chainCfg1] rpcNoReceipt dbSample 7 "0xaa" 1).1.rows.find?
        (fun r => r.id == 7)).map (·.gasUsed) ≠ some none := by
  refine ⟨?_, ?_, ?_⟩ <;> decide

/-- C1 (amended): when the transaction fetch succeeds, the receipt call
fails (NotFound) and the normalization UPDATE succeeds (its value
parameter is a valid numeric literal), the worker still processes the
item to `CONFIRMED`; no gas-used data from a receipt is stored, but the
normalization update writes the struct's zero value, so the row's
gas_used column ends up `0` rather than unset.  (When the value
parameter is invalid — the empty zero value of an empty or undecodable
value field — the normalization UPDATE fails and the item ends in
`ERROR` instead; see the field-lifecycle theorem.) -/
theorem receipt_missing_confirmed_gas_zero (registry : List ChainConfig) (rpc : RPCBehavior)
    (db : DBState) (id : Nat) (hash : String) (chainID : Int) (row : TxRow)
    (cfg : ChainConfig) (ethTx : EthTransaction) (emsg : String)
    (hrow : db.rows.find? (fun r => r.id == id) = some row)
    (hchain : registry.find? (fun c => c.ChainID == chainID) = some cfg)
    (htx : rpc.txByHash cfg.RPCURL hash = .ok ethTx)
    (hrcpt : rpc.receiptByHash cfg.RPCURL hash = .error emsg)
    (hnum : isValidNumeric (buildTxData ethTx chainID
      (rpc.receiptByHash cfg.RPCURL hash).toOption).Value = true) :
    (processTransaction noStorageFail registry rpc db id hash chainID).2.1 = .ok ()
    ∧ rowStatus (processTransaction noStorageFail registry rpc db id hash chainID).1 id
        = some .CONFIRMED
    ∧ ((processTransaction noStorageFail registry rpc db id hash chainID).1.rows.find?
        (fun r => r.id == id)).map (·.gasUsed) = some (some 0) := by
  have main := processTransaction_confirmed registry rpc db id hash chainID row cfg ethTx
    hrow hchain htx hnum
  have hopt : (rpc.receiptByHash cfg.RPCURL hash).toOption = none := by
    rw [hrcpt]; rfl
  refine ⟨main.1, ?_, ?_⟩
  · unfold rowStatus
    rw [main.2]
    rfl
  · rw [main.2, hopt, buildTxData_GasUsed_none]
    rfl

theorem receipt_missing_confirmed_gas_zero_witness :
    dbSample.rows.find? (fun r => r.id == 7) = some rowSample
    ∧ [chainCfg1].find? (fun c => c.ChainID == (1 : Int)) = some chainCfg1
    ∧ rpcNoReceipt.txByHash chainCfg1.RPCURL "0xaa" = .ok ethTxSample
    ∧ rpcNoReceipt.receiptByHash chainCfg1.RPCURL "0xaa"
        = .error "receipt not found (transaction may be pending)"
    ∧ isValidNumeric (buildTxData ethTxSample 1
        (rpcNoReceipt.receiptByHash chainCfg1.RPCURL "0xaa").toOption).Value = true
    ∧ rowStatus (processTransaction noStorageFail [chainCfg1] rpcNoReceipt dbSample 7 "0xaa" 1).1 7
        = some .CONFIRMED
    ∧ ((processTransaction noStorageFail [chainCfg1] rpcNoReceipt dbSample 7 "0xaa" 1).1.rows.find?
        (fun r => r.id == 7)).map (·.gasUsed) = some (some 0) := by
  refine ⟨rfl, rfl, rfl, rfl, by decide, ?_, ?_⟩
  · exact (receipt_missing_confirmed_gas_zero [chainCfg1] rpcNoReceipt dbSample 7 "0xaa" 1
      rowSample chainCfg1 ethTxSample "receipt not found (transaction may be pending)"
      rfl rfl rfl rfl (by decide)).2.1
  · exact (receipt_missing_confirmed_gas_zero [chainCfg1] rpcNoReceipt dbSample 7 "0xaa" 1
      rowSample chainCfg1 ethTxSample "receipt not found (transaction may be pending)"
      rfl rfl rfl rfl (by decide)).2.2

/-! ## C2: field lifecycle and decode failures -/

/-- Sample fetched transaction envelope whose block-number hex is
malformed. -/
def ethTxBadBlock : EthTransaction :=
  { Hash := "0xaa", From := "0xsender", To := "0xrecipient", Value := "0x1", Gas := "0x5208",
    GasPrice := "0x1", Input := "0x", Nonce := "0x0", BlockHash := "0xbh",
    BlockNumber := "0xzz", TransactionIndex := "0x0" }

/-- Sample successful receipt (`status 0x1`, gas used `0x5208`). -/
def receiptSample : EthTransactionReceipt :=
  { TransactionHash := "0xaa", BlockHash := "0xbh", BlockNumber := "0x10",
    GasUsed := "0x5208", CumulativeGasUsed := "0x5208", Status := "0x1" }

/-- Node behaviour: transaction fetch yields the malformed-block
envelope, receipt fetch succeeds. -/
def rpcBadBlock : RPCBehavior :=
  { txByHash := fun _ _ => .ok ethTxBadBlock,
    receiptByHash := fun _ _ => .ok receiptSample }

/-- C2 counterexample: at this concrete input the block-number hex is
malformed; the item still reaches `CONFIRMED`, but the stored
block_number is `some 0` — the decode failure leaves the column set to
the zero value, not unset as the claim states. -/
theorem decode_failure_field_zero_cex :
    HexToInt64 "0xzz" = .error "failed to parse hex"
    ∧ rowStatus (processTransaction noStorageFail [chainCfg1] rpcBadBlock dbSample 7 "0xaa" 1).1 7
        = some Status.CONFIRMED
    ∧ ((processTransaction noStorageFail [chainCfg1] rpcBadBlock dbSample 7 "0xaa" 1).1.rows.find?
        (fun r => r.id == 7)).map (·.blockNumber) = some (some 0)
    ∧ ((processTransaction noStorageFail [chainCfg1] rpcBadBlock dbSample 7 "0xaa" 1).1.rows.find?
        (fun r => r.id == 7)).map (·.blockNumber) ≠ some none := by
  refine ⟨rfl, ?_, ?_, ?_⟩ <;> decide

/-- C2 (amended): the normalized fields are untouched by the transition
to `FETCHING` (so they stay unset until normalization); when the
normalization UPDATE succeeds the item reaches `CONFIRMED` with all
five columns populated together by that single update, and an
individual decode failure of the block number or of the gas used does
not abort the item — it stores the BIGINT zero value `0` in the
corresponding column rather than leaving it unset; an empty or
undecodable value field, however, leaves the empty-string zero value,
whose NUMERIC write fails, so the item aborts to `ERROR` with no
normalized column written. -/
theorem fields_lifecycle (registry : List ChainConfig) (rpc : RPCBehavior)
    (db : DBState) (id : Nat) (hash : String) (chainID : Int) (row : TxRow)
    (cfg : ChainConfig) (ethTx : EthTransaction)
    (hrow : db.rows.find? (fun r => r.id == id) = some row)
    (hchain : registry.find? (fun c => c.ChainID == chainID) = some cfg)
    (htx : rpc.txByHash cfg.RPCURL hash = .ok ethTx) :
    (updateStatus noStorageFail db id .FETCHING "").map
        (fun d => d.rows.find? (fun r => r.id == id))
      = .ok (some { row with status := Status.FETCHING, errorReason := some "" })
    ∧ (isValidNumeric (buildTxData ethTx chainID
          (rpc.receiptByHash cfg.RPCURL hash).toOption).Value = true →
        (processTransaction noStorageFail registry rpc db id hash chainID).2.1 = .ok ()
        ∧ rowStatus (processTransaction noStorageFail registry rpc db id hash chainID).1 id
            = some .CONFIRMED
        ∧ ((processTransaction noStorageFail registry rpc db id hash chainID).1.rows.find?
            (fun r => r.id == id)).map (fun r =>
              (r.fromAddress.isSome, r.toAddress.isSome, r.value.isSome,
               r.blockNumber.isSome, r.gasUsed.isSome))
          = some (true, true, true, true, true))
    ∧ (∀ e, ethTx.BlockNumber ≠ "" → HexToInt64 ethTx.BlockNumber = .error e →
        isValidNumeric (buildTxData ethTx chainID
          (rpc.receiptByHash cfg.RPCURL hash).toOption).Value = true →
        ((processTransaction noStorageFail registry rpc db id hash chainID).1.rows.find?
          (fun r => r.id == id)).map (·.blockNumber) = some (some 0))
    ∧ (∀ rc e, rpc.receiptByHash cfg.RPCURL hash = .ok rc → rc.GasUsed ≠ "" →
        HexToInt64 rc.GasUsed = .error e →
        isValidNumeric (buildTxData ethTx chainID
          (rpc.receiptByHash cfg.RPCURL hash).toOption).Value = true →
        ((processTransaction noStorageFail registry rpc db id hash chainID).1.rows.find?
          (fun r => r.id == id)).map (·.gasUsed) = some (some 0))
    ∧ (ethTx.Value = "" ∨ (∃ e2, HexToDecimalString ethTx.Value = .error e2) →
        (processTransaction noStorageFail registry rpc db id hash chainID).2.1
          = .error ("failed to normalize transaction: "
              ++ "invalid input syntax for type numeric")
        ∧ rowStatus (processTransaction noStorageFail registry rpc db id hash chainID).1 id
            = some .ERROR
        ∧ ((processTransaction noStorageFail registry rpc db id hash chainID).1.rows.find?
            (fun r => r.id == id)).map (fun r =>
              (r.fromAddress, r.toAddress, r.value, r.blockNumber, r.gasUsed))
          = some (row.fromAddress, row.toAddress, row.value,
              row.blockNumber, row.gasUsed)) := by
  have hf1 := find?_rows_update db.rows id Status.FETCHING "" row hrow
  refine ⟨?_, ?_, ?_, ?_, ?_⟩
  · rw [updateStatus_noFail_ok db id .FETCHING row hrow]
    simp only [Except.map, hf1]
  · intro hnum
    have main := processTransaction_confirmed registry rpc db id hash chainID row cfg ethTx
      hrow hchain htx hnum
    refine ⟨main.1, ?_, ?_⟩
    · unfold rowStatus
      rw [main.2]
      rfl
    · rw [main.2]
      rfl
  · intro e hne herr hnum
    have main := processTransaction_confirmed registry rpc db id hash chainID row cfg ethTx
      hrow hchain htx hnum
    rw [main.2,
      buildTxData_BlockNumber_err ethTx chainID (rpc.receiptByHash cfg.RPCURL hash).toOption
        e hne herr]
    rfl
  · intro rc e hrc hg herr hnum
    have main := processTransaction_confirmed registry rpc db id hash chainID row cfg ethTx
      hrow hchain htx hnum
    have hopt : (rpc.receiptByHash cfg.RPCURL hash).toOption = some rc := by
      rw [hrc]; rfl
    rw [main.2, hopt, buildTxData_GasUsed_err ethTx chainID rc e hg herr]
    rfl
  · intro hv
    have hVal : (buildTxData ethTx chainID
        (rpc.receiptByHash cfg.RPCURL hash).toOption).Value = "" := by
      rcases hv with hv | ⟨e2, hv⟩
      · exact buildTxData_Value_empty ethTx chainID _ hv
      · by_cases hne : ethTx.Value = ""
        · exact buildTxData_Value_empty ethTx chainID _ hne
        · exact buildTxData_Value_err ethTx chainID _ e2 hne hv
    have hbad : isValidNumeric (buildTxData ethTx chainID
        (rpc.receiptByHash cfg.RPCURL hash).toOption).Value = false := by
      rw [hVal]; rfl
    have h1 := updateStatus_noFail_ok db id .FETCHING row hrow
    have hchainE : GetChain registry chainID = .ok cfg := by
      unfold GetChain; rw [hchain]
    have hfetch : fetchFromBlockchain registry rpc hash chainID
        = (.ok (buildTxData ethTx chainID (rpc.receiptByHash cfg.RPCURL hash).toOption),
           ⟨1, ["eth_getTransactionByHash", "eth_getTransactionReceipt"]⟩) := by
      simp only [fetchFromBlockchain, hchainE, htx]
    have hns := normalizeAndStore_err
      { rows := db.rows.map (fun r =>
          if r.id == id then { r with status := Status.FETCHING, errorReason := some "" } else r),
        events := db.events ++ [{
          transactionId := id, previousStatus := some row.status, newStatus := .FETCHING,
          reason := "Status changed by worker: " ++ row.status.toStr ++ " → "
            ++ Status.FETCHING.toStr }] }
      id (buildTxData ethTx chainID (rpc.receiptByHash cfg.RPCURL hash).toOption) hbad
    have h2e := updateStatus_noFail_err
      { rows := db.rows.map (fun r =>
          if r.id == id then { r with status := Status.FETCHING, errorReason := some "" } else r),
        events := db.events ++ [{
          transactionId := id, previousStatus := some row.status, newStatus := .FETCHING,
          reason := "Status changed by worker: " ++ row.status.toStr ++ " → "
            ++ Status.FETCHING.toStr }] }
      id .ERROR "invalid input syntax for type numeric"
      { row with status := Status.FETCHING, errorReason := some "" } (by decide) hf1
    have hf2e := find?_rows_update
      (db.rows.map (fun r =>
        if r.id == id then { r with status := Status.FETCHING, errorReason := some "" } else r))
      id Status.ERROR "invalid input syntax for type numeric"
      { row with status := Status.FETCHING, errorReason := some "" } hf1
    refine ⟨?_, ?_, ?_⟩
    · simp only [processTransaction, h1, hfetch, hns, h2e]
    · simp only [processTransaction, h1, hfetch, hns, h2e, rowStatus, hf2e]
      rfl
    · simp only [processTransaction, h1, hfetch, hns, h2e, hf2e]
      rfl

/-- Sample fetched transaction envelope with an empty value field (the
Go zero value that the NUMERIC write rejects). -/
def ethTxNoValue : EthTransaction :=
  { Hash := "0xaa", From := "0xsender", To := "0xrecipient", Value := "", Gas := "0x5208",
    GasPrice := "0x1", Input := "0x", Nonce := "0x0", BlockHash := "0xbh",
    BlockNumber := "0x10", TransactionIndex := "0x0" }

/-- Node behaviour: transaction fetch yields the empty-value envelope,
receipt fetch succeeds. -/
def rpcNoValue : RPCBehavior :=
  { txByHash := fun _ _ => .ok ethTxNoValue,
    receiptByHash := fun _ _ => .ok receiptSample }

theorem fields_lifecycle_witness :
    dbSample.rows.find? (fun r => r.id == 7) = some rowSample
    ∧ ethTxBadBlock.BlockNumber ≠ ""
    ∧ HexToInt64 ethTxBadBlock.BlockNumber = .error "failed to parse hex"
    ∧ isValidNumeric (buildTxData ethTxBadBlock 1
        (rpcBadBlock.receiptByHash chainCfg1.RPCURL "0xaa").toOption).Value = true
    ∧ rowStatus (processTransaction noStorageFail [chainCfg1] rpcBadBlock dbSample 7 "0xaa" 1).1 7
        = some .CONFIRMED
    ∧ ((processTransaction noStorageFail [chainCfg1] rpcBadBlock dbSample 7 "0xaa" 1).1.rows.find?
        (fun r => r.id == 7)).map (·.blockNumber) = some (some 0)
    ∧ ethTxNoValue.Value = ""
    ∧ rowStatus (processTransaction noStorageFail [chainCfg1] rpcNoValue dbSample 7 "0xaa" 1).1 7
        = some .ERROR
    ∧ ((processTransaction noStorageFail [chainCfg1] rpcNoValue dbSample 7 "0xaa" 1).1.rows.find?
        (fun r => r.id == 7)).map (fun r =>
          (r.fromAddress, r.toAddress, r.value, r.blockNumber, r.gasUsed))
      = some (none, none, none, none, none) := by
  refine ⟨rfl, by decide, rfl, by decide, ?_, ?_, rfl, ?_, ?_⟩
  · exact ((fields_lifecycle [chainCfg1] rpcBadBlock dbSample 7 "0xaa" 1 rowSample chainCfg1
      ethTxBadBlock rfl rfl rfl).2.1 (by decide)).2.1
  · exact (fields_lifecycle [chainCfg1] rpcBadBlock dbSample 7 "0xaa" 1 rowSample chainCfg1
      ethTxBadBlock rfl rfl rfl).2.2.1 "failed to parse hex" (by decide) rfl (by decide)
  · exact ((fields_lifecycle [chainCfg1] rpcNoValue dbSample 7 "0xaa" 1 rowSample chainCfg1
      ethTxNoValue rfl rfl rfl).2.2.2.2 (Or.inl rfl)).2.1
  · exact ((fields_lifecycle [chainCfg1] rpcNoValue dbSample 7 "0xaa" 1 rowSample chainCfg1
      ethTxNoValue rfl rfl rfl).2.2.2.2 (Or.inl rfl)).2.2

/-! ## C7: batch selection and sequential processing -/

theorem rowLE_total (a b : TxRow) : rowLE a b = true ∨ rowLE b a = true := by
  simp only [rowLE, decide_eq_true_eq]
  omega

theorem rowLE_trans (a b c : TxRow) :
    rowLE a b = true → rowLE b c = true → rowLE a c = true := by
  simp only [rowLE, decide_eq_true_eq]
  omega

theorem perm_insertByCreated (r : TxRow) (l : List TxRow) :
    List.Perm (insertByCreated r l) (r :: l) := by
  induction l with
  | nil => exact List.Perm.refl _
  | cons x xs ih =>
    simp only [insertByCreated]
    split
    · exact List.Perm.refl _
    · exact (ih.cons x).trans (List.Perm.swap r x xs)

theorem perm_sortByCreated (l : List TxRow) : List.Perm (sortByCreated l) l := by
  induction l with
  | nil => exact List.Perm.refl _
  | cons x xs ih =>
    exact (perm_insertByCreated x (sortByCreated xs)).trans (ih.cons x)

theorem pairwise_insertByCreated (r : TxRow) (l : List TxRow)
    (hl : l.Pairwise (fun a b => rowLE a b)) :
    (insertByCreated r l).Pairwise (fun a b => rowLE a b) := by
  induction l with
  | nil => simp [insertByCreated]
  | cons x xs ih =>
    rcases List.pairwise_cons.mp hl with ⟨hx, hxs⟩
    simp only [insertByCreated]
    split
    · rename_i hle
      refine List.pairwise_cons.mpr ⟨?_, hl⟩
      intro b hb
      rcases List.mem_cons.mp hb with hbx | hbxs
      · rw [hbx]; exact hle
      · exact rowLE_trans r x b hle (hx b hbxs)
    · rename_i hle
      refine List.pairwise_cons.mpr ⟨?_, ih hxs⟩
      intro b hb
      have hb' := (perm_insertByCreated r xs).mem_iff.mp hb
      rcases List.mem_cons.mp hb' with hbr | hbxs
      · rw [hbr]
        rcases rowLE_total r x with h | h
        · exact absurd h hle
        · exact h
      · exact hx b hbxs

theorem pairwise_sortByCreated (l : List TxRow) :
    (sortByCreated l).Pairwise (fun a b => rowLE a b) := by
  induction l with
  | nil => simp [sortByCreated]
  | cons x xs ih => exact pairwise_insertByCreated x (sortByCreated xs) ih

theorem runBatch_ids (failAt : UpdOp → Bool) (registry : List ChainConfig)
    (rpc : RPCBehavior) :
    ∀ (l : List TxRow) (db : DBState),
      (runBatch failAt registry rpc db l).2.map Prod.fst = l.map (·.id) := by
  intro l
  induction l with
  | nil => intro db; rfl
  | cons r rs ih =>
    intro db
    simp only [runBatch, List.map_cons]
    rw [ih]

/-- C7: a failed batch query aborts the tick with an error; on a
successful query every selected row is processed in order and gets an
outcome, even when earlier rows fail; the selection holds at most
`batchSize` rows, all with status `RECEIVED` from the store, and is
oldest-created-first: every selected row was created no later than any
eligible row left unselected. -/
theorem processBatch_spec (failAt : UpdOp → Bool) (registry : List ChainConfig)
    (rpc : RPCBehavior) (db : DBState) (batchSize : Nat) :
    processBatch true failAt registry rpc db batchSize
      = .error "failed to query RECEIVED transactions"
    ∧ (processBatch false failAt registry rpc db batchSize).map
        (fun pr => pr.2.map Prod.fst)
      = .ok ((selectBatch db batchSize).map (·.id))
    ∧ (selectBatch db batchSize).length ≤ batchSize
    ∧ (∀ x ∈ selectBatch db batchSize, x.status = Status.RECEIVED ∧ x ∈ db.rows)
    ∧ (∀ x ∈ selectBatch db batchSize, ∀ y ∈ db.rows,
        y.status = Status.RECEIVED → y ∉ selectBatch db batchSize
        → x.createdAt ≤ y.createdAt) := by
  refine ⟨rfl, ?_, ?_, ?_, ?_⟩
  · have h : (processBatch false failAt registry rpc db batchSize).map
        (fun pr => pr.2.map Prod.fst)
        = .ok ((runBatch failAt registry rpc db (selectBatch db batchSize)).2.map Prod.fst) :=
      rfl
    rw [h, runBatch_ids]
  · unfold selectBatch
    rw [List.length_take]
    exact Nat.min_le_left _ _
  · intro x hx
    have hx' : x ∈ sortByCreated (db.rows.filter (fun r => r.status == Status.RECEIVED)) :=
      List.mem_of_mem_take hx
    have hx'' := (perm_sortByCreated _).mem_iff.mp hx'
    have hm := List.mem_filter.mp hx''
    exact ⟨by simpa using hm.2, hm.1⟩
  · intro x hx y hy hyrec hynot
    have hymem : y ∈ sortByCreated (db.rows.filter (fun r => r.status == Status.RECEIVED)) := by
      rw [(perm_sortByCreated _).mem_iff, List.mem_filter]
      exact ⟨hy, by simp [hyrec]⟩
    have hsplit := List.take_append_drop batchSize
      (sortByCreated (db.rows.filter (fun r => r.status == Status.RECEIVED)))
    have hydrop : y ∈ (sortByCreated (db.rows.filter
        (fun r => r.status == Status.RECEIVED))).drop batchSize := by
      rcases List.mem_append.mp (by rw [hsplit]; exact hymem) with h | h
      · exact absurd h hynot
      · exact h
    have hsorted := pairwise_sortByCreated
      (db.rows.filter (fun r => r.status == Status.RECEIVED))
    rw [← hsplit] at hsorted
    have hle := (List.pairwise_append.mp hsorted).2.2 x hx y hydrop
    simpa [rowLE] using hle

/-- Store with two `RECEIVED` rows: the younger row sits on an
unregistered chain, the older on chain 1. -/
def rowBatchA : TxRow :=
  { id := 1, transactionHash := "0xaa", chainId := 1, status := .RECEIVED,
    fromAddress := none, toAddress := none, value := none, blockNumber := none,
    gasUsed := none, errorReason := none, createdAt := 5 }

/-- Second sample batch row: older, on the unregistered chain 999. -/
def rowBatchB : TxRow :=
  { id := 2, transactionHash := "0xbb", chainId := 999, status := .RECEIVED,
    fromAddress := none, toAddress := none, value := none, blockNumber := none,
    gasUsed := none, errorReason := none, createdAt := 3 }

/-- Sample store for the batch witness. -/
def dbBatch : DBState := { rows := [rowBatchA, rowBatchB], events := [] }

theorem processBatch_spec_witness :
    processBatch true noStorageFail [chainCfg1] rpcNoReceipt dbBatch 10
      = .error "failed to query RECEIVED transactions"
    ∧ (processBatch false noStorageFail [chainCfg1] rpcNoReceipt dbBatch 10).map
        (fun pr => pr.2.map Prod.fst) = .ok [2, 1]
    ∧ (selectBatch dbBatch 1).length ≤ 1
    ∧ rowBatchB ∈ selectBatch dbBatch 1
    ∧ rowBatchA ∉ selectBatch dbBatch 1
    ∧ rowBatchB.createdAt ≤ rowBatchA.createdAt := by
  refine ⟨(processBatch_spec noStorageFail [chainCfg1] rpcNoReceipt dbBatch 10).1, ?_,
    (processBatch_spec noStorageFail [chainCfg1] rpcNoReceipt dbBatch 1).2.2.1,
    by decide, by decide, ?_⟩
  · have h := (processBatch_spec noStorageFail [chainCfg1] rpcNoReceipt dbBatch 10).2.1
    rw [show (selectBatch dbBatch 10).map (·.id) = [2, 1] from by decide] at h
    exact h
  · exact (processBatch_spec noStorageFail [chainCfg1] rpcNoReceipt dbBatch 1).2.2.2.2
      rowBatchB (by decide) rowBatchA (by decide) rfl (by decide)

/-! ## C8 and C9: idempotent submission and its audit event -/

/-- C8: submitting the same `(transaction_hash, chain_id)` pair twice
yields the same transaction id and status both times and never inserts
a second row: the second call returns the existing row's identity. -/
theorem createTransaction_idempotent (db : DBState) (h : String) (c : Int)
    (hh : h ≠ "") (hc : c ≠ 0) (id1 id2 now1 now2 : Nat) :
    ∀ db1 rid1 st1, CreateTransaction db h c id1 now1 = .ok (db1, rid1, st1) →
    ∀ db2 rid2 st2, CreateTransaction db1 h c id2 now2 = .ok (db2, rid2, st2) →
      rid2 = rid1 ∧ st2 = st1 ∧ db2.rows = db1.rows := by
  intro db1 rid1 st1 h1 db2 rid2 st2 h2
  have hval : ¬(h = "" ∨ c = 0) := by
    rintro (h' | h')
    · exact hh h'
    · exact hc h'
  unfold CreateTransaction at h1 h2
  rw [if_neg hval] at h1 h2
  cases hfind : db.rows.find? (fun r => r.transactionHash == h && r.chainId == c) with
  | some row =>
    simp only [hfind, Except.ok.injEq, Prod.mk.injEq] at h1
    obtain ⟨hdb, hrid, hst⟩ := h1
    subst hdb
    simp only [hfind, Except.ok.injEq, Prod.mk.injEq] at h2
    obtain ⟨hdb2, hrid2, hst2⟩ := h2
    refine ⟨hrid2.symm.trans hrid, hst2.symm.trans hst, ?_⟩
    rw [← hdb2]
  | none =>
    simp only [hfind, Except.ok.injEq, Prod.mk.injEq] at h1
    obtain ⟨hdb, hrid, hst⟩ := h1
    subst hdb
    simp only [List.find?_append, hfind, Option.none_or] at h2
    rw [List.find?_cons_of_pos
      (p := fun r : TxRow => r.transactionHash == h && r.chainId == c) _ (by simp)] at h2
    simp only [Except.ok.injEq, Prod.mk.injEq] at h2
    obtain ⟨hdb2, hrid2, hst2⟩ := h2
    refine ⟨hrid2.symm.trans hrid, hst2.symm.trans hst, ?_⟩
    rw [← hdb2]

/-- C9: every accepted submission — including a resubmission of an
existing `(transaction_hash, chain_id)` pair, which inserts no new
row — appends one ingestion event with no previous status and reason
`transaction registered` to the transaction's audit log. -/
theorem createTransaction_event_appended (db : DBState) (h : String) (c : Int)
    (id now : Nat) (hh : h ≠ "") (hc : c ≠ 0) :
    ∀ db' rid st, CreateTransaction db h c id now = .ok (db', rid, st) →
      db'.events = db.events ++
        [{ transactionId := rid, previousStatus := none,
           newStatus := st, reason := "transaction registered" }]
      ∧ (∀ row, db.rows.find? (fun r => r.transactionHash == h && r.chainId == c)
            = some row →
          db'.rows = db.rows ∧ rid = row.id) := by
  intro db' rid st hcall
  have hval : ¬(h = "" ∨ c = 0) := by
    rintro (h' | h')
    · exact hh h'
    · exact hc h'
  unfold CreateTransaction at hcall
  rw [if_neg hval] at hcall
  cases hfind : db.rows.find? (fun r => r.transactionHash == h && r.chainId == c) with
  | some row =>
    simp only [hfind, Except.ok.injEq, Prod.mk.injEq] at hcall
    obtain ⟨hdb, hrid, hst⟩ := hcall
    subst hdb
    subst hrid
    subst hst
    refine ⟨rfl, ?_⟩
    intro row' hrow'
    injection hrow' with hrow2
    exact ⟨rfl, by rw [hrow2]⟩
  | none =>
    simp only [hfind, Except.ok.injEq, Prod.mk.injEq] at hcall
    obtain ⟨hdb, hrid, hst⟩ := hcall
    subst hdb
    subst hrid
    subst hst
    refine ⟨rfl, ?_⟩
    intro row' hrow'
    exact Option.noConfusion hrow'

/-- Row created by the first sample submission. -/
def rowSubmit : TxRow :=
  { id := 11, transactionHash := "0xcc", chainId := 5, status := .RECEIVED,
    fromAddress := none, toAddress := none, value := none, blockNumber := none,
    gasUsed := none, errorReason := none, createdAt := 100 }

/-- Audit event written by every sample submission. -/
def evSubmit : IngestionEvent :=
  { transactionId := 11, previousStatus := none, newStatus := .RECEIVED,
    reason := "transaction registered" }

/-- Store after the first sample submission. -/
def dbAfterSubmit : DBState := { rows := [rowSubmit], events := [evSubmit] }

/-- Store after resubmitting the same pair: same single row, one more
event. -/
def dbAfterResubmit : DBState := { rows := [rowSubmit], events := [evSubmit, evSubmit] }

theorem createTransaction_idempotent_witness :
    CreateTransaction { rows := [], events := [] } "0xcc" 5 11 100
      = .ok (dbAfterSubmit, 11, Status.RECEIVED)
    ∧ CreateTransaction dbAfterSubmit "0xcc" 5 12 200
      = .ok (dbAfterResubmit, 11, Status.RECEIVED)
    ∧ (11 : Nat) = 11 ∧ Status.RECEIVED = Status.RECEIVED
    ∧ dbAfterResubmit.rows = dbAfterSubmit.rows := by
  have h := createTransaction_idempotent { rows := [], events := [] } "0xcc" 5
    (by decide) (by decide) 11 12 100 200 dbAfterSubmit 11 .RECEIVED rfl
    dbAfterResubmit 11 .RECEIVED rfl
  exact ⟨rfl, rfl, h.1, h.2.1, h.2.2⟩

theorem createTransaction_event_appended_witness :
    CreateTransaction dbAfterSubmit "0xcc" 5 12 200
      = .ok (dbAfterResubmit, 11, Status.RECEIVED)
    ∧ dbAfterSubmit.rows.find?
        (fun r => r.transactionHash == "0xcc" && r.chainId == 5) = some rowSubmit
    ∧ dbAfterResubmit.events = dbAfterSubmit.events ++
        [{ transactionId := 11,
           previousStatus := none, newStatus := Status.RECEIVED,
           reason := "transaction registered" }]
    ∧ dbAfterResubmit.rows = dbAfterSubmit.rows := by
  have h := createTransaction_event_appended dbAfterSubmit "0xcc" 5 12 200
    (by decide) (by decide) dbAfterResubmit 11 .RECEIVED rfl
  exact ⟨rfl, rfl, h.1, (h.2 rowSubmit rfl).1⟩

end TxnFlow
